import Mathlib

/-!
Verification of the watch/dispatch core of `pg_notifcations.py`.

The embedding models the two central functions of the repository:

* `iter_events (ctx, channel='events', timeout=None)` — a generator that
  sets the connection to autocommit, opens a cursor, issues `LISTEN`, and
  then loops forever: one `select.select([conn], [], [], timeout or None)`
  readiness wait per iteration; on timeout it prints `"Timeout"`; on
  readiness it calls `conn.poll()` and pops every buffered notification
  from the front of `conn.notifies`, yielding `(pid, channel, payload)`.

* `watch (ctx, timeout, callback, ipc)` — resolves the `--callback`
  identifier with `rsplit('.', 1)` + `importlib.import_module` + `getattr`,
  then runs one of three modes: ipc (builds a queue and two
  `multiprocessing.Process` objects), inline (calls the handler on each
  event) or echo (prints one line per event).

The external world of one `iter_events` run is a finite list of `Round`s:
each round is one completed readiness wait, which either timed out or
delivered a batch of notifications into `conn.notifies`.  The run is
modelled as the list of its observable steps (`Obs`): connection-level
actions, printed lines, and values yielded to the caller.
-/

namespace PgNotifications

/-- The backslash character. -/
def bslashChar : Char := Char.ofNat 92

/-- The single-quote character. -/
def squoteChar : Char := Char.ofNat 39

/-- The double-quote character. -/
def dquoteChar : Char := Char.ofNat 34

/-- One entry of `conn.notifies`: a `psycopg2` `Notify` record, carrying the
notifying backend pid, the channel name and the payload string. -/
structure Notification where
  pid : Nat
  channel : String
  payload : String
deriving DecidableEq

/-- One completed readiness wait of the `iter_events` loop, as performed by
the environment: `select.select` either returned `([],[],[])` (timed out)
or reported the connection ready, in which case `conn.poll()` appends the
round's batch of notifications to `conn.notifies`. -/
inductive Round
  | timedOut
  | ready (batch : List Notification)
deriving DecidableEq

/-- Connection/cursor-level actions performed by `iter_events`.
`closeCursor` models `curs.close()`; the constructor exists so that the
theorems can state whether the code ever releases the cursor. -/
inductive ConnAction
  | setIsolationLevel (level : Nat)
  | openCursor
  | execute (sql : String)
  | closeCursor
  | selectWait (timeout : Option Nat)
  | poll
deriving DecidableEq

/-- What a call for the next element of the `iter_events` generator can hand
to the caller.  The spec's `next` contract allows an event or a
`TimeoutSignal`; the constructor `timeoutSignal` exists so that the
theorems can state whether the code ever returns one. -/
inductive StreamYield
  | event (pid : Nat) (channel : String) (payload : String)
  | timeoutSignal
deriving DecidableEq

/-- One observable step of an `iter_events` run. -/
inductive Obs
  | connAct (a : ConnAction)
  | printLine (s : String)
  | yielded (y : StreamYield)
deriving DecidableEq

/-- The value `timeout or None` at the `select.select` call of `iter_events`:
Python truthiness sends both `None` and `0` to `None` (block forever). -/
def effectiveTimeout : Option Nat → Option Nat
  | none => none
  | some t => if t = 0 then none else some t

/-- The constant `psycopg2.extensions.ISOLATION_LEVEL_AUTOCOMMIT`. -/
def ISOLATION_LEVEL_AUTOCOMMIT : Nat := 0

/-- The `LISTEN {};` statement formatted by `iter_events`. -/
def listenSql (channel : String) : String := "LISTEN " ++ channel ++ ";"

/-- The startup line `print("Waiting for notifications on channel '{}'")`. -/
def waitingLine (channel : String) : String :=
  "Waiting for notifications on channel " ++ String.mk [squoteChar]
    ++ channel ++ String.mk [squoteChar]

/-- The steps of the body of `while True:` in `iter_events`, one iteration
per completed round.  A timed-out `select` (`== ([],[],[])`) prints
`"Timeout"`; a ready one runs `conn.poll()` and then the inner
`while conn.notifies:` loop, which pops from the front of the buffer and
yields `(notify.pid, notify.channel, notify.payload)` until it is empty. -/
def iter_events_loop (timeout : Option Nat) : List Round → List Obs
  | [] => []
  | Round.timedOut :: rs =>
      Obs.connAct (ConnAction.selectWait (effectiveTimeout timeout)) ::
      Obs.printLine "Timeout" ::
      iter_events_loop timeout rs
  | Round.ready batch :: rs =>
      Obs.connAct (ConnAction.selectWait (effectiveTimeout timeout)) ::
      Obs.connAct ConnAction.poll ::
      (batch.map fun n => Obs.yielded (StreamYield.event n.pid n.channel n.payload)) ++
      iter_events_loop timeout rs

/-- The setup of `iter_events`, run before the first wait:
`conn.set_isolation_level(ISOLATION_LEVEL_AUTOCOMMIT)`, `conn.cursor()`,
`curs.execute("LISTEN {};")`, and the startup print. -/
def iter_events_setup (channel : String) : List Obs :=
  [Obs.connAct (ConnAction.setIsolationLevel ISOLATION_LEVEL_AUTOCOMMIT),
   Obs.connAct ConnAction.openCursor,
   Obs.connAct (ConnAction.execute (listenSql channel)),
   Obs.printLine (waitingLine channel)]

/-- The full observable run of `iter_events(ctx, channel, timeout)` over a
finite list of completed rounds. -/
def iter_events (channel : String) (timeout : Option Nat) (rounds : List Round) :
    List Obs :=
  iter_events_setup channel ++ iter_events_loop timeout rounds

/-- The values the run yields to the caller, in order. -/
def yieldsOf (l : List Obs) : List StreamYield :=
  l.filterMap fun o => match o with
    | Obs.yielded y => some y
    | _ => none

/-- The lines the run prints, in order. -/
def printedOf (l : List Obs) : List String :=
  l.filterMap fun o => match o with
    | Obs.printLine s => some s
    | _ => none

/-- The connection-level actions of the run, in order. -/
def connActionsOf (l : List Obs) : List ConnAction :=
  l.filterMap fun o => match o with
    | Obs.connAct a => some a
    | _ => none

/-- The SQL statements executed on the cursor during the run, in order. -/
def executedSqlOf (l : List Obs) : List String :=
  l.filterMap fun o => match o with
    | Obs.connAct (ConnAction.execute s) => some s
    | _ => none

/-- The timeout argument of each `select.select` wait of the run, in order. -/
def selectWaitsOf (l : List Obs) : List (Option Nat) :=
  l.filterMap fun o => match o with
    | Obs.connAct (ConnAction.selectWait t) => some t
    | _ => none

/-- Whether a yield is the `TimeoutSignal` of the spec's `next` contract. -/
def isTimeoutSignal : StreamYield → Bool
  | StreamYield.timeoutSignal => true
  | _ => false

/-- Whether a connection action releases the cursor. -/
def isCloseCursor : ConnAction → Bool
  | ConnAction.closeCursor => true
  | _ => false

/-- The batch a round delivered into `conn.notifies` (empty on timeout). -/
def roundBatch : Round → List Notification
  | Round.timedOut => []
  | Round.ready batch => batch

/-- All notifications the source delivered during the run, in arrival
order. -/
def deliveredNotifications (rounds : List Round) : List Notification :=
  (rounds.map roundBatch).flatten

/-- The `(pid, channel, payload)` triple `iter_events` yields for a
notification. -/
def toEventTriple (n : Notification) : Nat × String × String :=
  (n.pid, n.channel, n.payload)

/-- The dot character, the separator of `callback.rsplit('.', 1)`. -/
def dotChar : Char := Char.ofNat 46

/-- Whether a character list contains a dot. -/
def hasDot : List Char → Bool
  | [] => false
  | c :: cs => if c = dotChar then true else hasDot cs

/-- Split a character list at its LAST dot, if any: the splitting done by
Python `rsplit('.', 1)`. -/
def rsplitLastDot : List Char → Option (List Char × List Char)
  | [] => none
  | c :: cs =>
      match rsplitLastDot cs with
      | some (pre, post) => some (c :: pre, post)
      | none => if c = dotChar then some ([], cs) else none

/-- Python `s.rsplit('.', 1)`: at most one split, taken from the right; a
string with no dot yields the one-element list `[s]`. -/
def pyRsplitDotOnce (s : String) : List String :=
  match rsplitLastDot s.data with
  | none => [s]
  | some (pre, post) => [String.mk pre, String.mk post]

/-- The exceptions the embedded `watch` can raise. -/
inductive PyError
  | valueError
  | importError (modName : String)
  | badArgumentUsage (msg : String)
  | handlerException (msg : String)
  | assertionError (msg : String)
deriving DecidableEq

/-- The tuple unpacking `mod_name, func_name = callback.rsplit('.', 1)`:
a list of any length other than two raises `ValueError`. -/
def unpackTwo : List String → Except PyError (String × String)
  | [a, b] => Except.ok (a, b)
  | _ => Except.error PyError.valueError

/-- Outcome of invoking the resolved handler on one event: Python either
returns or raises. -/
inductive HandlerResult
  | returned
  | raised (msg : String)
deriving DecidableEq

/-- What `getattr(mod, name, None)` can produce, abstracted to what the
code inspects: `none` when the attribute is missing (the `None` default),
`some b` for a present attribute with `b = callable(value)`. -/
structure PyModule where
  attr : String → Option Bool

/-- Python `callable` applied to a `getattr(..., None)` result
(`callable(None)` is `False`). -/
def pyCallable : Option Bool → Bool
  | none => false
  | some b => b

/-- The external world of a `watch` run: what `importlib.import_module`
finds, and how the resolved callback behaves on each event. -/
structure WatchEnv where
  importModule : String → Option PyModule
  handler : Nat × String × String → HandlerResult

/-- A `multiprocessing.Process` object; the constructor leaves it
unstarted, only `start()` sets `started`. -/
structure PyProcess where
  started : Bool

/-- The method `multiprocessing.Process.join`: asserts the process was started
(`AssertionError: can only join a started process` otherwise). -/
def pyProcessJoin (p : PyProcess) : Except PyError Unit :=
  if p.started then Except.ok ()
  else Except.error (PyError.assertionError "can only join a started process")

/-- The externally visible effects of a `watch` run. `listen` marks entry
into `iter_events(ctx)` (whose own trace is modelled above and begins by
issuing `LISTEN` on its default channel `'events'`). -/
inductive WatchEffect
  | importModule (modName : String)
  | listen (channel : String)
  | createQueue
  | createProcess (target : String)
  | startProcess (target : String)
  | joinProcess (target : String)
  | invokeHandler (event : Nat × String × String)
  | echoLine (line : String)
deriving DecidableEq

/-- Whether a connection action changes the isolation level. -/
def isSetIsolation : ConnAction → Bool
  | ConnAction.setIsolationLevel _ => true
  | _ => false

/-- Lower-case hex digit, as used by CPython string escapes. -/
def hexDigit (n : Nat) : Char :=
  if n < 10 then Char.ofNat (48 + n) else Char.ofNat (87 + n)

/-- How CPython `repr` renders one character of a string quoted with `q`:
backslash and the quote are backslash-escaped, tab/newline/return become
`\t`/`\n`/`\r`, other non-printable ASCII becomes `\xhh`, everything else
is kept as is (faithful for the ASCII strings this program handles). -/
def pyReprChar (q : Char) (c : Char) : List Char :=
  if c = bslashChar then [bslashChar, bslashChar]
  else if c = q then [bslashChar, q]
  else if c = Char.ofNat 9 then [bslashChar, 't']
  else if c = Char.ofNat 10 then [bslashChar, 'n']
  else if c = Char.ofNat 13 then [bslashChar, 'r']
  else if c.toNat < 32 ∨ c.toNat = 127 then
    [bslashChar, 'x', hexDigit (c.toNat / 16), hexDigit (c.toNat % 16)]
  else [c]

/-- CPython `repr` quote choice for a string: single quotes, unless the
string contains a single quote and no double quote. -/
def pyReprQuote (s : String) : Char :=
  if s.data.contains squoteChar && !(s.data.contains dquoteChar)
  then dquoteChar else squoteChar

/-- CPython `repr` of a string. -/
def pyReprStr (s : String) : String :=
  String.mk ((pyReprQuote s :: (s.data.map (pyReprChar (pyReprQuote s))).flatten)
    ++ [pyReprQuote s])

/-- Python `"{}".format(event)` for an `event = (pid, channel, payload)`
tuple: `str` of a tuple renders each component with `repr`. -/
def pyFormatEvent (e : Nat × String × String) : String :=
  "(" ++ Nat.repr e.1 ++ ", " ++ pyReprStr e.2.1 ++ ", " ++ pyReprStr e.2.2 ++ ")"

/-- The events `iter_events(ctx)` hands to `watch`, in arrival order. -/
def deliveredEvents (rounds : List Round) : List (Nat × String × String) :=
  (deliveredNotifications rounds).map toEventTriple

/-- The inline-mode loop `for event in iter_events(ctx): function(event)`:
returns the events the handler was invoked on, in order, and the outcome.
A raising handler stops the loop at once and propagates. -/
def inlineLoop (env : WatchEnv) :
    List (Nat × String × String) →
      List (Nat × String × String) × Except PyError Unit
  | [] => ([], Except.ok ())
  | e :: rest =>
      match env.handler e with
      | HandlerResult.raised msg =>
          ([e], Except.error (PyError.handlerException msg))
      | HandlerResult.returned =>
          (e :: (inlineLoop env rest).1, (inlineLoop env rest).2)

/-- The body of the `if ipc:` branch of `watch` once a callback resolved:
`queue = Queue()`, `back = Process(target=listen_to_queue, ...)`,
`front = Process(target=queue_to_callback, ...)`, `back.join()`,
`front.join()`.  No `start()` call occurs anywhere in the source. -/
def watchIpcBody : List WatchEffect × Except PyError Unit :=
  let back : PyProcess := { started := false }
  let front : PyProcess := { started := false }
  let setupEffects : List WatchEffect :=
    [WatchEffect.createQueue,
     WatchEffect.createProcess "listen_to_queue",
     WatchEffect.createProcess "queue_to_callback"]
  match pyProcessJoin back with
  | Except.error e =>
      (setupEffects ++ [WatchEffect.joinProcess "listen_to_queue"],
       Except.error e)
  | Except.ok _ =>
      match pyProcessJoin front with
      | Except.error e =>
          (setupEffects ++ [WatchEffect.joinProcess "listen_to_queue",
            WatchEffect.joinProcess "queue_to_callback"], Except.error e)
      | Except.ok _ =>
          (setupEffects ++ [WatchEffect.joinProcess "listen_to_queue",
            WatchEffect.joinProcess "queue_to_callback"], Except.ok ())

/-- The callback-resolution prologue of `watch`: `function = None`;
`if callback:` then `rsplit('.', 1)` unpacking, `import_module`,
`getattr(..., None)` and the `callable` check.  Returns the effects so
far and either the raised exception or whether a function was resolved. -/
def resolvePhase (env : WatchEnv) (callback : Option String) :
    List WatchEffect × Except PyError Bool :=
  match callback with
  | none => ([], Except.ok false)
  | some cb =>
      if cb.isEmpty then ([], Except.ok false)
      else
        match unpackTwo (pyRsplitDotOnce cb) with
        | Except.error e => ([], Except.error e)
        | Except.ok (modName, funcName) =>
            match env.importModule modName with
            | none => ([WatchEffect.importModule modName],
                       Except.error (PyError.importError modName))
            | some md =>
                if pyCallable (md.attr funcName) then
                  ([WatchEffect.importModule modName], Except.ok true)
                else
                  ([WatchEffect.importModule modName],
                   Except.error (PyError.badArgumentUsage
                     (cb ++ " could not be imported")))

/-- The `watch` command over a finite observation window of rounds.  The
`--timeout` option (`_timeout`) is parsed by the CLI but never forwarded
to `iter_events`, which `watch` always calls with its defaults
(`channel='events'`, `timeout=None`); it therefore plays no further
role.  After the resolution prologue (`watchBody`):  `ipc` without a
resolved function raises `BadArgumentUsage`; `ipc` with one runs
`watchIpcBody`; otherwise a resolved function runs the inline loop, else
every event is echoed as `"Received event: {}".format(event)`. -/
def watchBody (env : WatchEnv) (effects : List WatchEffect)
    (hasFunction : Bool) (ipc : Bool) (rounds : List Round) :
    List WatchEffect × Except PyError Unit :=
  if ipc then
    if !hasFunction then
      (effects,
       Except.error (PyError.badArgumentUsage "IPC specified but no callback"))
    else
      (effects ++ watchIpcBody.1, watchIpcBody.2)
  else if hasFunction then
    (effects ++ WatchEffect.listen "events" ::
      (inlineLoop env (deliveredEvents rounds)).1.map WatchEffect.invokeHandler,
     (inlineLoop env (deliveredEvents rounds)).2)
  else
    (effects ++ WatchEffect.listen "events" ::
      (deliveredEvents rounds).map fun e =>
        WatchEffect.echoLine ("Received event: " ++ pyFormatEvent e),
     Except.ok ())

def watch (env : WatchEnv) (_timeout : Nat) (callback : Option String)
    (ipc : Bool) (rounds : List Round) :
    List WatchEffect × Except PyError Unit :=
  match resolvePhase env callback with
  | (effects, Except.error e) => (effects, Except.error e)
  | (effects, Except.ok hasFunction) => watchBody env effects hasFunction ipc rounds

/-- Does `needle` occur at the head of `haystack`? -/
def leadsChars : List Char → List Char → Bool
  | [], _ => true
  | _ :: _, [] => false
  | a :: as, b :: bs => a = b && leadsChars as bs

/-- Does `needle` occur contiguously anywhere within `haystack`?  Used to
state that a printed line contains a payload string unmodified. -/
def occursWithin (needle haystack : List Char) : Bool :=
  match haystack with
  | [] => leadsChars needle []
  | _ :: rest => leadsChars needle haystack || occursWithin needle rest

/-- A world with no importable modules and a handler that returns. -/
def emptyEnv : WatchEnv :=
  { importModule := fun _ => none,
    handler := fun _ => HandlerResult.returned }

/-- The importable world of this repository: module `src.mqtt_forwarder`
(src/mqtt_forwarder.py) exposing the callable `to_mqtt`. -/
def mqttEnv : WatchEnv :=
  { importModule := fun m =>
      if m = "src.mqtt_forwarder" then
        some { attr := fun a => if a = "to_mqtt" then some true else none }
      else none,
    handler := fun _ => HandlerResult.returned }

/-- A world with a module `handlers` exposing a callable `on_event` that
raises exactly on the payload `"p3"`. -/
def inlineEnv : WatchEnv :=
  { importModule := fun m =>
      if m = "handlers" then
        some { attr := fun a => if a = "on_event" then some true else none }
      else none,
    handler := fun e =>
      if e.2.2 = "p3" then HandlerResult.raised "boom" else HandlerResult.returned }

/-- One round delivering five notifications with payloads `p1` … `p5`. -/
def fiveRounds : List Round :=
  [Round.ready
    [Notification.mk 101 "events" "p1", Notification.mk 101 "events" "p2",
     Notification.mk 101 "events" "p3", Notification.mk 101 "events" "p4",
     Notification.mk 101 "events" "p5"]]

/-- A payload containing a single backslash: the characters `a`, `\`, `b`. -/
def backslashPayload : String :=
  String.mk [Char.ofNat 97, bslashChar, Char.ofNat 98]

/-- First payload of the spec's end-to-end scenario. -/
def scenarioPayload1 : String :=
  "\x7b\"table\":\"users\",\"action\":\"INSERT\",\"data\":\x7b\x7d\x7d"

/-- Second payload of the spec's end-to-end scenario. -/
def scenarioPayload2 : String :=
  "\x7b\"table\":\"orders\",\"action\":\"UPDATE\",\"data\":\x7b\x7d\x7d"

/-- Third payload of the spec's end-to-end scenario. -/
def scenarioPayload3 : String :=
  "\x7b\"table\":\"users\",\"action\":\"DELETE\",\"data\":\x7b\x7d\x7d"

/-- The spec's end-to-end scenario: three raw notifications on `"events"`. -/
def scenarioRounds : List Round :=
  [Round.ready
    [Notification.mk 101 "events" scenarioPayload1,
     Notification.mk 101 "events" scenarioPayload2,
     Notification.mk 101 "events" scenarioPayload3]]

theorem yieldsOf_append (l₁ l₂ : List Obs) :
    yieldsOf (l₁ ++ l₂) = yieldsOf l₁ ++ yieldsOf l₂ := by
  simp [yieldsOf, List.filterMap_append]

theorem yieldsOf_setup (channel : String) :
    yieldsOf (iter_events_setup channel) = [] := by
  simp [yieldsOf, iter_events_setup, List.filterMap]

theorem yieldsOf_connAct_cons (a : ConnAction) (l : List Obs) :
    yieldsOf (Obs.connAct a :: l) = yieldsOf l := by
  simp [yieldsOf]

theorem yieldsOf_printLine_cons (s : String) (l : List Obs) :
    yieldsOf (Obs.printLine s :: l) = yieldsOf l := by
  simp [yieldsOf]

theorem yieldsOf_map_yield (batch : List Notification) :
    yieldsOf (batch.map fun n =>
        Obs.yielded (StreamYield.event n.pid n.channel n.payload)) =
      batch.map fun n => StreamYield.event n.pid n.channel n.payload := by
  induction batch with
  | nil => rfl
  | cons n ns ih =>
      simp only [List.map_cons, yieldsOf, List.filterMap_cons] at ih ⊢
      rw [ih]

theorem yieldsOf_loop (timeout : Option Nat) (rounds : List Round) :
    yieldsOf (iter_events_loop timeout rounds) =
      (deliveredNotifications rounds).map
        fun n => StreamYield.event n.pid n.channel n.payload := by
  induction rounds with
  | nil => rfl
  | cons r rs ih =>
    cases r with
    | timedOut =>
        rw [iter_events_loop, yieldsOf_connAct_cons, yieldsOf_printLine_cons, ih]
        simp [deliveredNotifications, roundBatch]
    | ready batch =>
        rw [iter_events_loop, yieldsOf_append, yieldsOf_connAct_cons,
          yieldsOf_connAct_cons, yieldsOf_map_yield, ih]
        simp [deliveredNotifications, roundBatch]

theorem printedOf_append (l₁ l₂ : List Obs) :
    printedOf (l₁ ++ l₂) = printedOf l₁ ++ printedOf l₂ := by
  simp [printedOf, List.filterMap_append]

theorem selectWaitsOf_append (l₁ l₂ : List Obs) :
    selectWaitsOf (l₁ ++ l₂) = selectWaitsOf l₁ ++ selectWaitsOf l₂ := by
  simp [selectWaitsOf, List.filterMap_append]

theorem connActionsOf_append (l₁ l₂ : List Obs) :
    connActionsOf (l₁ ++ l₂) = connActionsOf l₁ ++ connActionsOf l₂ := by
  simp [connActionsOf, List.filterMap_append]

theorem executedSqlOf_append (l₁ l₂ : List Obs) :
    executedSqlOf (l₁ ++ l₂) = executedSqlOf l₁ ++ executedSqlOf l₂ := by
  simp [executedSqlOf, List.filterMap_append]

theorem selectWaitsOf_map_yield (batch : List Notification) :
    selectWaitsOf (batch.map fun n =>
        Obs.yielded (StreamYield.event n.pid n.channel n.payload)) = [] := by
  induction batch with
  | nil => rfl
  | cons n ns _ih => simp [selectWaitsOf, List.filterMap_cons]

theorem executedSqlOf_map_yield (batch : List Notification) :
    executedSqlOf (batch.map fun n =>
        Obs.yielded (StreamYield.event n.pid n.channel n.payload)) = [] := by
  induction batch with
  | nil => rfl
  | cons n ns _ih => simp [executedSqlOf, List.filterMap_cons]

theorem connActionsOf_map_yield (batch : List Notification) :
    connActionsOf (batch.map fun n =>
        Obs.yielded (StreamYield.event n.pid n.channel n.payload)) = [] := by
  induction batch with
  | nil => rfl
  | cons n ns _ih => simp [connActionsOf, List.filterMap_cons]

/-- Every readiness wait of the loop uses the same `timeout or None`
argument: the timeout governs each single wait, one wait per round. -/
theorem selectWaitsOf_loop (timeout : Option Nat) (rounds : List Round) :
    selectWaitsOf (iter_events_loop timeout rounds) =
      List.replicate rounds.length (effectiveTimeout timeout) := by
  induction rounds with
  | nil => rfl
  | cons r rs ih =>
    cases r with
    | timedOut =>
        rw [iter_events_loop]
        rw [show selectWaitsOf
            (Obs.connAct (ConnAction.selectWait (effectiveTimeout timeout)) ::
              Obs.printLine "Timeout" :: iter_events_loop timeout rs) =
          effectiveTimeout timeout :: selectWaitsOf (iter_events_loop timeout rs)
          from rfl, ih]
        rfl
    | ready batch =>
        rw [iter_events_loop, selectWaitsOf_append]
        rw [show selectWaitsOf
            (Obs.connAct (ConnAction.selectWait (effectiveTimeout timeout)) ::
              Obs.connAct ConnAction.poll ::
              batch.map fun n =>
                Obs.yielded (StreamYield.event n.pid n.channel n.payload)) =
          effectiveTimeout timeout :: selectWaitsOf (batch.map fun n =>
            Obs.yielded (StreamYield.event n.pid n.channel n.payload))
          from rfl, selectWaitsOf_map_yield, ih]
        rfl

/-- The loop never executes further SQL after the setup `LISTEN`. -/
theorem executedSqlOf_loop (timeout : Option Nat) (rounds : List Round) :
    executedSqlOf (iter_events_loop timeout rounds) = [] := by
  induction rounds with
  | nil => rfl
  | cons r rs ih =>
    cases r with
    | timedOut =>
        rw [iter_events_loop]
        rw [show executedSqlOf
            (Obs.connAct (ConnAction.selectWait (effectiveTimeout timeout)) ::
              Obs.printLine "Timeout" :: iter_events_loop timeout rs) =
          executedSqlOf (iter_events_loop timeout rs) from rfl, ih]
    | ready batch =>
        rw [iter_events_loop, executedSqlOf_append]
        rw [show executedSqlOf
            (Obs.connAct (ConnAction.selectWait (effectiveTimeout timeout)) ::
              Obs.connAct ConnAction.poll ::
              batch.map fun n =>
                Obs.yielded (StreamYield.event n.pid n.channel n.payload)) =
          executedSqlOf (batch.map fun n =>
            Obs.yielded (StreamYield.event n.pid n.channel n.payload))
          from rfl, executedSqlOf_map_yield, ih]
        rfl

theorem connActions_loop_no_release (timeout : Option Nat) (rounds : List Round) :
    (connActionsOf (iter_events_loop timeout rounds)).countP isCloseCursor = 0 ∧
    (connActionsOf (iter_events_loop timeout rounds)).countP isSetIsolation = 0 := by
  induction rounds with
  | nil => exact ⟨rfl, rfl⟩
  | cons r rs ih =>
    cases r with
    | timedOut =>
        rw [iter_events_loop]
        rw [show connActionsOf
            (Obs.connAct (ConnAction.selectWait (effectiveTimeout timeout)) ::
              Obs.printLine "Timeout" :: iter_events_loop timeout rs) =
          ConnAction.selectWait (effectiveTimeout timeout) ::
            connActionsOf (iter_events_loop timeout rs) from rfl]
        simpa [List.countP_cons, isCloseCursor, isSetIsolation] using ih
    | ready batch =>
        rw [iter_events_loop, connActionsOf_append]
        rw [show connActionsOf
            (Obs.connAct (ConnAction.selectWait (effectiveTimeout timeout)) ::
              Obs.connAct ConnAction.poll ::
              batch.map fun n =>
                Obs.yielded (StreamYield.event n.pid n.channel n.payload)) =
          ConnAction.selectWait (effectiveTimeout timeout) :: ConnAction.poll ::
            connActionsOf (batch.map fun n =>
              Obs.yielded (StreamYield.event n.pid n.channel n.payload))
          from rfl, connActionsOf_map_yield]
        simpa [List.countP_append, List.countP_cons, isCloseCursor,
          isSetIsolation] using ih

/-- C1: for any sequence of rounds within one subscription lifetime,
`iter_events` yields the delivered notifications to the caller as
`(pid, channel, payload)` events in exactly arrival order — every round's
buffer is drained in full, nothing is reordered or coalesced, and this
holds for every number `N ≥ 0` of delivered notifications. -/
theorem iter_events_yields_in_arrival_order
    (channel : String) (timeout : Option Nat) (rounds : List Round) :
    yieldsOf (iter_events channel timeout rounds) =
      (deliveredNotifications rounds).map
        fun n => StreamYield.event n.pid n.channel n.payload := by
  rw [iter_events, yieldsOf_append, yieldsOf_setup, yieldsOf_loop]
  rfl

/-- C2 counterexample: on a wait that times out, `iter_events` does not
hand a `TimeoutSignal` (or anything else) to the caller — it prints
`"Timeout"` and keeps waiting.  Concretely, a run whose single round timed
out yields nothing, and a run with a timeout round followed by a delivered
notification yields only the event, never a `TimeoutSignal`. -/
theorem timeout_signal_never_returned_counterexample :
    yieldsOf (iter_events "events" (some 5) [Round.timedOut]) = [] ∧
    printedOf (iter_events_loop (some 5) [Round.timedOut]) = ["Timeout"] ∧
    (yieldsOf (iter_events "events" (some 5)
        [Round.timedOut,
         Round.ready [Notification.mk 101 "events" "x"]])).countP
      isTimeoutSignal = 0 := by
  exact ⟨rfl, rfl, rfl⟩

/-- C2 (amended): when no notification arrives within the timeout,
`iter_events` neither raises nor yields anything to the caller; the
timeout is consumed internally (a `"Timeout"` line is printed) and the
next iteration performs an identical readiness wait, so subsequent calls
resume normal waiting unchanged; no `TimeoutSignal` is ever returned. -/
theorem timeout_consumed_internally
    (channel : String) (timeout : Option Nat) (rounds : List Round) :
    yieldsOf (iter_events_loop timeout (Round.timedOut :: rounds)) =
      yieldsOf (iter_events_loop timeout rounds) ∧
    printedOf (iter_events_loop timeout (Round.timedOut :: rounds)) =
      "Timeout" :: printedOf (iter_events_loop timeout rounds) ∧
    selectWaitsOf (iter_events_loop timeout (Round.timedOut :: rounds)) =
      effectiveTimeout timeout ::
        selectWaitsOf (iter_events_loop timeout rounds) ∧
    (yieldsOf (iter_events channel timeout rounds)).countP isTimeoutSignal
      = 0 := by
  refine ⟨rfl, rfl, rfl, ?_⟩
  rw [iter_events, yieldsOf_append, yieldsOf_setup, yieldsOf_loop]
  simp [List.countP_eq_zero, isTimeoutSignal]

/-- C6: `timeout=0` means wait indefinitely on each individual wait:
`select.select([conn],[],[],timeout or None)` receives `None` (no limit)
when the configured timeout is `0`, and the run performs exactly one such
wait per cycle — the timeout governs each single wait, never the whole
session. -/
theorem timeout_zero_waits_indefinitely_per_cycle
    (channel : String) (rounds : List Round) :
    effectiveTimeout (some 0) = none ∧
    selectWaitsOf (iter_events channel (some 0) rounds) =
      List.replicate rounds.length none := by
  refine ⟨rfl, ?_⟩
  rw [iter_events, selectWaitsOf_append, selectWaitsOf_loop]
  rfl

/-- C8 is a code bug: the stream has no scoped acquisition at all.  On
every finite observation of a run — in particular one abandoned right
after initialization (`rounds = []`) — the cursor is never closed and the
only SQL ever executed is the `LISTEN`; no `UNLISTEN` or other release is
issued on any exit path. -/
theorem stream_never_releases
    (channel : String) (timeout : Option Nat) (rounds : List Round) :
    (connActionsOf (iter_events channel timeout rounds)).countP isCloseCursor
      = 0 ∧
    executedSqlOf (iter_events channel timeout rounds) =
      [listenSql channel] := by
  constructor
  · rw [iter_events, connActionsOf_append, List.countP_append,
      (connActions_loop_no_release timeout rounds).1]
    rfl
  · rw [iter_events, executedSqlOf_append, executedSqlOf_loop]
    rfl

/-- C10: every `iter_events` run, before yielding anything, sets the
shared connection to autocommit isolation and issues `LISTEN` on the
channel through a newly opened cursor; the run contains exactly one
isolation-level change (to autocommit) and exactly one SQL statement (the
`LISTEN`), so the stream itself never undoes either. -/
theorem iter_events_subscribes_before_yielding
    (channel : String) (timeout : Option Nat) (rounds : List Round) :
    iter_events channel timeout rounds =
      Obs.connAct (ConnAction.setIsolationLevel ISOLATION_LEVEL_AUTOCOMMIT) ::
      Obs.connAct ConnAction.openCursor ::
      Obs.connAct (ConnAction.execute (listenSql channel)) ::
      Obs.printLine (waitingLine channel) ::
      iter_events_loop timeout rounds ∧
    yieldsOf (iter_events_setup channel) = [] ∧
    (connActionsOf (iter_events channel timeout rounds)).countP isSetIsolation
      = 1 ∧
    executedSqlOf (iter_events channel timeout rounds) =
      [listenSql channel] := by
  refine ⟨rfl, rfl, ?_, ?_⟩
  · rw [iter_events, connActionsOf_append, List.countP_append,
      (connActions_loop_no_release timeout rounds).2]
    rfl
  · rw [iter_events, executedSqlOf_append, executedSqlOf_loop]
    rfl

theorem watch_of_resolved (env : WatchEnv) (timeout : Nat)
    (callback : Option String) (ipc : Bool) (rounds : List Round)
    (effects : List WatchEffect) (hasFunction : Bool)
    (h : resolvePhase env callback = (effects, Except.ok hasFunction)) :
    watch env timeout callback ipc rounds =
      watchBody env effects hasFunction ipc rounds := by
  unfold watch
  rw [h]

theorem watch_of_resolve_error (env : WatchEnv) (timeout : Nat)
    (callback : Option String) (ipc : Bool) (rounds : List Round)
    (effects : List WatchEffect) (e : PyError)
    (h : resolvePhase env callback = (effects, Except.error e)) :
    watch env timeout callback ipc rounds = (effects, Except.error e) := by
  unfold watch
  rw [h]

/-- C5: requesting ipc mode with no handler resolved (`--callback`
absent, or the falsy empty identifier) raises the configuration error
`BadArgumentUsage("IPC specified but no callback")` with an empty effect
trace: no module import, no `LISTEN`, no queue creation and no process
creation has happened. -/
theorem ipc_without_callback_rejected_before_subscribe
    (env : WatchEnv) (timeout : Nat) (rounds : List Round) :
    watch env timeout none true rounds =
      ([], Except.error
        (PyError.badArgumentUsage "IPC specified but no callback")) ∧
    watch env timeout (some "") true rounds =
      ([], Except.error
        (PyError.badArgumentUsage "IPC specified but no callback")) :=
  ⟨rfl, rfl⟩

theorem rsplitLastDot_eq_none (cs : List Char) (h : hasDot cs = false) :
    rsplitLastDot cs = none := by
  induction cs with
  | nil => rfl
  | cons c cs ih =>
      rw [hasDot] at h
      by_cases hc : c = dotChar
      · rw [if_pos hc] at h
        exact absurd h (by simp)
      · rw [if_neg hc] at h
        simp [rsplitLastDot, ih h, hc]

/-- C9: a non-empty callback identifier with no `.` separator makes
`watch` raise `ValueError` at the one-field `rsplit` unpacking, before
any module import, resolution check, subscription or event processing
(the effect trace is empty) — not the advertised
resolution/configuration error. -/
theorem dotless_callback_raises_valueerror
    (env : WatchEnv) (timeout : Nat) (cb : String) (ipc : Bool)
    (rounds : List Round)
    (hne : cb.isEmpty = false) (hnd : hasDot cb.data = false) :
    watch env timeout (some cb) ipc rounds =
      ([], Except.error PyError.valueError) := by
  have hr : pyRsplitDotOnce cb = [cb] := by
    simp [pyRsplitDotOnce, rsplitLastDot_eq_none cb.data hnd]
  have hres : resolvePhase env (some cb) =
      ([], Except.error PyError.valueError) := by
    simp [resolvePhase, hne, hr, unpackTwo]
  exact watch_of_resolve_error env timeout (some cb) ipc rounds []
    PyError.valueError hres

theorem dotless_callback_raises_valueerror_witness :
    watch emptyEnv 0 (some "callbackfn") true [] =
      ([], Except.error PyError.valueError) :=
  dotless_callback_raises_valueerror emptyEnv 0 "callbackfn" true []
    (by decide) (by decide)

/-- C3 is a code bug: in ipc mode with a resolvable handler the source
constructs the queue and the two `Process` objects but never calls
`start()` on either; the immediately following `back.join()` raises
`AssertionError("can only join a started process")`.  The complete effect
trace shows no `startProcess`, no `listen`, and no handler invocation:
neither a reader nor a runner ever executes, no event is drained. -/
theorem ipc_mode_never_starts_processes :
    watch mqttEnv 0 (some "src.mqtt_forwarder.to_mqtt") true
        [Round.ready [Notification.mk 101 "events" "x"]] =
      ([WatchEffect.importModule "src.mqtt_forwarder",
        WatchEffect.createQueue,
        WatchEffect.createProcess "listen_to_queue",
        WatchEffect.createProcess "queue_to_callback",
        WatchEffect.joinProcess "listen_to_queue"],
       Except.error
        (PyError.assertionError "can only join a started process")) := by
  rfl

theorem inlineLoop_raises_at (env : WatchEnv)
    (events : List (Nat × String × String)) (k : Nat) (msg : String)
    (hk : k < events.length)
    (hok : ∀ e ∈ events.take k, env.handler e = HandlerResult.returned)
    (herr : env.handler (events.get ⟨k, hk⟩) = HandlerResult.raised msg) :
    inlineLoop env events =
      (events.take (k+1), Except.error (PyError.handlerException msg)) := by
  induction events generalizing k with
  | nil => exact absurd hk (Nat.not_lt_zero k)
  | cons e rest ih =>
      cases k with
      | zero =>
          have he : env.handler e = HandlerResult.raised msg := herr
          simp only [inlineLoop]
          rw [he]
          rfl
      | succ k =>
          have he : env.handler e = HandlerResult.returned := by
            apply hok
            rw [List.take_succ_cons]
            exact List.mem_cons_self e _
          have hk2 : k < rest.length := Nat.lt_of_succ_lt_succ hk
          have hok2 : ∀ x ∈ rest.take k,
              env.handler x = HandlerResult.returned := by
            intro x hx
            apply hok
            rw [List.take_succ_cons]
            exact List.mem_cons_of_mem e hx
          have herr2 : env.handler (rest.get ⟨k, hk2⟩) =
              HandlerResult.raised msg := herr
          simp only [inlineLoop]
          rw [he, ih k hk2 hok2 herr2]
          rfl

/-- C4: in inline mode with a resolved handler, the handler is invoked
synchronously on each delivered event in order; when it raises on the
`k`-th event (0-based `k`), the events before it have been handled, the
handler is invoked on exactly the first `k+1` events — never on any later
one — and the exception propagates to the caller, terminating the watch
session with that error. -/
theorem inline_mode_fail_fast (env : WatchEnv) (timeout : Nat) (cb : String)
    (effects : List WatchEffect) (rounds : List Round) (k : Nat) (msg : String)
    (hres : resolvePhase env (some cb) = (effects, Except.ok true))
    (hk : k < (deliveredEvents rounds).length)
    (hok : ∀ e ∈ (deliveredEvents rounds).take k,
      env.handler e = HandlerResult.returned)
    (herr : env.handler ((deliveredEvents rounds).get ⟨k, hk⟩) =
      HandlerResult.raised msg) :
    watch env timeout (some cb) false rounds =
      (effects ++ WatchEffect.listen "events" ::
        ((deliveredEvents rounds).take (k+1)).map WatchEffect.invokeHandler,
       Except.error (PyError.handlerException msg)) := by
  rw [watch_of_resolved env timeout (some cb) false rounds effects true hres]
  unfold watchBody
  rw [inlineLoop_raises_at env (deliveredEvents rounds) k msg hk hok herr]
  rfl

theorem inline_mode_fail_fast_witness :
    watch inlineEnv 0 (some "handlers.on_event") false fiveRounds =
      ([WatchEffect.importModule "handlers"] ++
        WatchEffect.listen "events" ::
        ((deliveredEvents fiveRounds).take (2+1)).map WatchEffect.invokeHandler,
       Except.error (PyError.handlerException "boom")) :=
  inline_mode_fail_fast inlineEnv 0 "handlers.on_event"
    [WatchEffect.importModule "handlers"] fiveRounds 2 "boom"
    (by rfl) (by decide) (by decide) (by decide)

/-- C7 counterexample: echo mode prints each event with `str(tuple)`,
which renders the payload with Python `repr`.  For the payload consisting
of the characters `a`, `\`, `b`, the single echoed line does not contain
the payload string unmodified (the backslash is doubled), refuting the
claim at this input. -/
theorem echo_payload_modified_counterexample :
    watch emptyEnv 0 none false
        [Round.ready [Notification.mk 101 "events" backslashPayload]] =
      ([WatchEffect.listen "events",
        WatchEffect.echoLine
          ("Received event: " ++ pyFormatEvent (101, "events", backslashPayload))],
       Except.ok ()) ∧
    occursWithin backslashPayload.data
      ("Received event: " ++ pyFormatEvent (101, "events", backslashPayload)).data
      = false :=
  ⟨rfl, by decide⟩

/-- C7 (amended): in echo mode, for every delivered sequence, `watch`
prints exactly one line per event in delivery order, invokes no handler
(the trace holds nothing but the subscription marker and the echo lines),
and each line contains the Python `repr` of the event tuple; each payload
appears unmodified within its line whenever `repr` escapes none of its
characters — in particular each of the three scenario payloads does. -/
theorem echo_prints_one_line_per_event (env : WatchEnv) (timeout : Nat)
    (rounds : List Round) :
    watch env timeout none false rounds =
      (WatchEffect.listen "events" ::
        (deliveredEvents rounds).map (fun e =>
          WatchEffect.echoLine ("Received event: " ++ pyFormatEvent e)),
       Except.ok ()) ∧
    (watch emptyEnv 0 none false scenarioRounds).1 =
      [WatchEffect.listen "events",
       WatchEffect.echoLine
        ("Received event: " ++ pyFormatEvent (101, "events", scenarioPayload1)),
       WatchEffect.echoLine
        ("Received event: " ++ pyFormatEvent (101, "events", scenarioPayload2)),
       WatchEffect.echoLine
        ("Received event: " ++ pyFormatEvent (101, "events", scenarioPayload3))] ∧
    occursWithin scenarioPayload1.data
      ("Received event: " ++ pyFormatEvent (101, "events", scenarioPayload1)).data
      = true ∧
    occursWithin scenarioPayload2.data
      ("Received event: " ++ pyFormatEvent (101, "events", scenarioPayload2)).data
      = true ∧
    occursWithin scenarioPayload3.data
      ("Received event: " ++ pyFormatEvent (101, "events", scenarioPayload3)).data
      = true :=
  ⟨rfl, rfl, by decide, by decide, by decide⟩

end PgNotifications
